import Mathlib

/-!
Verification of the A2A communication core (messages, pattern routing,
message router, local priority queue) of the open-deep-research-strands
repository, via a shallow embedding of the Python source into Lean.

Modelling conventions:
* ISO-8601 timestamps are modelled as integer seconds; "now" is passed
  explicitly to every function that reads the wall clock.
* Python dictionaries with string keys are modelled as association lists,
  with dictionary assignment modelled by `setAssoc` (update-or-append).
* Handlers are modelled symbolically as an identifier plus a flag telling
  whether invoking the handler succeeds (a `false` flag corresponds to the
  handler raising an exception).  Delivery functions return the list of
  handler identifiers that were invoked, in invocation order.
* Python truthiness of optional/empty values is modelled explicitly
  (empty string and integer zero are falsy, `None` is falsy).
-/

namespace ODRS

/-- Message type enumeration (`MessageType` in messages.py), one
constructor per Python enum member. -/
inductive MessageType where
  | task_assignment
  | task_result
  | task_status_update
  | task_cancellation
  | research_request
  | research_result
  | research_progress
  | quality_feedback
  | quality_assessment
  | revision_request
  | status_update
  | resource_request
  | resource_allocation
  | session_start
  | session_end
  | agent_registration
  | agent_deregistration
  | error_notification
  | retry_request
  | heartbeat
  | shutdown_signal
deriving DecidableEq

/-- The string value of a message type (the Python enum `.value`). -/
def MessageType.value : MessageType → String
  | .task_assignment => "task_assignment"
  | .task_result => "task_result"
  | .task_status_update => "task_status_update"
  | .task_cancellation => "task_cancellation"
  | .research_request => "research_request"
  | .research_result => "research_result"
  | .research_progress => "research_progress"
  | .quality_feedback => "quality_feedback"
  | .quality_assessment => "quality_assessment"
  | .revision_request => "revision_request"
  | .status_update => "status_update"
  | .resource_request => "resource_request"
  | .resource_allocation => "resource_allocation"
  | .session_start => "session_start"
  | .session_end => "session_end"
  | .agent_registration => "agent_registration"
  | .agent_deregistration => "agent_deregistration"
  | .error_notification => "error_notification"
  | .retry_request => "retry_request"
  | .heartbeat => "heartbeat"
  | .shutdown_signal => "shutdown_signal"

/-- Parsing a string into a message type (the Python enum constructor
`MessageType(s)`); `none` models the `ValueError` on an unknown value. -/
def MessageType.ofValue (s : String) : Option MessageType :=
  if s = "task_assignment" then some .task_assignment
  else if s = "task_result" then some .task_result
  else if s = "task_status_update" then some .task_status_update
  else if s = "task_cancellation" then some .task_cancellation
  else if s = "research_request" then some .research_request
  else if s = "research_result" then some .research_result
  else if s = "research_progress" then some .research_progress
  else if s = "quality_feedback" then some .quality_feedback
  else if s = "quality_assessment" then some .quality_assessment
  else if s = "revision_request" then some .revision_request
  else if s = "status_update" then some .status_update
  else if s = "resource_request" then some .resource_request
  else if s = "resource_allocation" then some .resource_allocation
  else if s = "session_start" then some .session_start
  else if s = "session_end" then some .session_end
  else if s = "agent_registration" then some .agent_registration
  else if s = "agent_deregistration" then some .agent_deregistration
  else if s = "error_notification" then some .error_notification
  else if s = "retry_request" then some .retry_request
  else if s = "heartbeat" then some .heartbeat
  else if s = "shutdown_signal" then some .shutdown_signal
  else none

/-- Message priority enumeration (`MessagePriority` in messages.py). -/
inductive MessagePriority where
  | low
  | normal
  | high
  | urgent
deriving DecidableEq

/-- The string value of a message priority. -/
def MessagePriority.value : MessagePriority → String
  | .low => "low"
  | .normal => "normal"
  | .high => "high"
  | .urgent => "urgent"

/-- Parsing a string into a message priority. -/
def MessagePriority.ofValue (s : String) : Option MessagePriority :=
  if s = "low" then some .low
  else if s = "normal" then some .normal
  else if s = "high" then some .high
  else if s = "urgent" then some .urgent
  else none

/-- Message delivery status enumeration (`MessageStatus` in messages.py). -/
inductive MessageStatus where
  | pending
  | sent
  | delivered
  | acknowledged
  | failed
  | expired
deriving DecidableEq

/-- The string value of a message status. -/
def MessageStatus.value : MessageStatus → String
  | .pending => "pending"
  | .sent => "sent"
  | .delivered => "delivered"
  | .acknowledged => "acknowledged"
  | .failed => "failed"
  | .expired => "expired"

/-- Parsing a string into a message status. -/
def MessageStatus.ofValue (s : String) : Option MessageStatus :=
  if s = "pending" then some .pending
  else if s = "sent" then some .sent
  else if s = "delivered" then some .delivered
  else if s = "acknowledged" then some .acknowledged
  else if s = "failed" then some .failed
  else if s = "expired" then some .expired
  else none

/-- Association-list lookup, modelling Python dictionary read. -/
def getAssoc : List (String × String) → String → Option String
  | [], _ => none
  | (k', v') :: rest, k => if k' = k then some v' else getAssoc rest k

/-- Association-list update-or-append, modelling Python dictionary
assignment `d[k] = v`. -/
def setAssoc : List (String × String) → String → String → List (String × String)
  | [], k, v => [(k, v)]
  | (k', v') :: rest, k, v =>
    if k' = k then (k, v) :: rest else (k', v') :: setAssoc rest k v

/-- The `A2AMessage` dataclass from messages.py.  `timestamp` is modelled
as integer seconds; `payload` and `delivery_metadata` as association
lists of strings. -/
structure A2AMessage where
  message_id : String
  sender_id : String
  receiver_id : String
  message_type : MessageType
  payload : List (String × String)
  session_id : String
  timestamp : Int
  correlation_id : Option String := none
  reply_to : Option String := none
  priority : MessagePriority := .normal
  ttl : Option Int := none
  status : MessageStatus := .pending
  retry_count : Nat := 0
  max_retries : Nat := 3
  routing_key : Option String := none
  delivery_metadata : Option (List (String × String)) := none
deriving DecidableEq

namespace A2AMessage

/-- `__post_init__`: an empty (falsy) `message_id` is replaced by a
generated one, a zero (falsy) `timestamp` by the current time; the
generated values are passed explicitly since they are nondeterministic
in the source. -/
def post_init (gen_id : String) (gen_ts : Int) (m : A2AMessage) : A2AMessage :=
  let m1 := if m.message_id = "" then { m with message_id := gen_id } else m
  if m1.timestamp = 0 then { m1 with timestamp := gen_ts } else m1

/-- `is_expired`: false when `ttl` is falsy (absent or zero); otherwise
true iff the elapsed seconds exceed the ttl. -/
def is_expired (m : A2AMessage) (now : Int) : Bool :=
  match m.ttl with
  | none => false
  | some t => if t = 0 then false else decide (now - m.timestamp > t)

/-- `can_retry`: retry budget not exhausted and not expired. -/
def can_retry (m : A2AMessage) (now : Int) : Bool :=
  decide (m.retry_count < m.max_retries) && !(m.is_expired now)

/-- `mark_retry`: increment the retry count and reset status to pending. -/
def mark_retry (m : A2AMessage) : A2AMessage :=
  { m with retry_count := m.retry_count + 1, status := .pending }

/-- `create_reply`: build a reply addressed back to the original sender,
linked through `correlation_id`/`reply_to`; the blank id and timestamp
are filled in by `post_init`. -/
def create_reply (gen_id : String) (gen_ts : Int) (m : A2AMessage)
    (sender_id : String) (payload : List (String × String))
    (message_type : Option MessageType) : A2AMessage :=
  let reply_type := message_type.getD .task_result
  post_init gen_id gen_ts
    { message_id := ""
      sender_id := sender_id
      receiver_id := m.sender_id
      message_type := reply_type
      payload := payload
      session_id := m.session_id
      timestamp := 0
      correlation_id := some m.message_id
      reply_to := some m.message_id
      priority := m.priority }

/-- `get_routing_key`: the explicit routing key when truthy (non-empty),
else the derived `"{type}.{receiver}"`. -/
def get_routing_key (m : A2AMessage) : String :=
  match m.routing_key with
  | some rk => if rk = "" then m.message_type.value ++ "." ++ m.receiver_id else rk
  | none => m.message_type.value ++ "." ++ m.receiver_id

/-- `add_delivery_metadata`: initialize the metadata map when falsy
(absent or empty), then assign the key. -/
def add_delivery_metadata (m : A2AMessage) (key value : String) : A2AMessage :=
  match m.delivery_metadata with
  | none => { m with delivery_metadata := some [(key, value)] }
  | some l =>
    if l = [] then { m with delivery_metadata := some [(key, value)] }
    else { m with delivery_metadata := some (setAssoc l key value) }

/-- Read one delivery-metadata entry. -/
def get_meta (m : A2AMessage) (key : String) : Option String :=
  match m.delivery_metadata with
  | none => none
  | some l => getAssoc l key

end A2AMessage

/-! ## Pattern matching (MessageRoute in message_router.py)

Python's `pattern.split(".")` is modelled by `splitDots` (splitting the
character list on the dot character, keeping empty segments, exactly as
Python's `str.split`). -/

/-- Auxiliary splitter: accumulates the current segment (reversed). -/
def splitDotsAux (cur : List Char) : List Char → List String
  | [] => [String.mk cur.reverse]
  | c :: cs =>
    if c = '.' then String.mk cur.reverse :: splitDotsAux [] cs
    else splitDotsAux (c :: cur) cs

/-- `s.split(".")` from Python. -/
def splitDots (s : String) : List String :=
  splitDotsAux [] s.toList

/-- The inner skip loop of `_match_parts` for a non-final `"**"`:
advance the key position to the first segment equal to the next pattern
segment (`while j < len(key_parts) and key_parts[j] != next_pattern`). -/
def skipTo (target : String) : List String → List String
  | [] => []
  | k :: ks => if k = target then k :: ks else skipTo target ks

/-- `MessageRoute._match_parts`: match pattern segments against key
segments with `*` (one segment) and `**` (multi-segment) wildcards; both
lists must be fully consumed. -/
def match_parts : List String → List String → Bool
  | [], [] => true
  | [], _ :: _ => false
  | _ :: _, [] => false
  | p :: ps, k :: ks =>
    if p = "*" then match_parts ps ks
    else if p = "**" then
      match ps with
      | [] => true
      | np :: rest => match_parts (np :: rest) (skipTo np (k :: ks))
    else if p = k then match_parts ps ks
    else false

/-- `MessageRoute._pattern_match`: a bare `"*"` matches everything, a
pattern with no `*` character must equal the key literally, otherwise
segment-wise matching applies. -/
def pattern_match (pattern key : String) : Bool :=
  if pattern = "*" then true
  else if (pattern.toList.contains '*') = false then pattern == key
  else match_parts (splitDots pattern) (splitDots key)

/-! ## Router (message_router.py) -/

/-- A handler, modelled symbolically: an identifier and a flag telling
whether invoking it succeeds (`ok = false` models the handler raising). -/
structure Handler where
  hid : String
  ok : Bool
deriving DecidableEq

/-- `MessageRoute`: pattern, handler, priority, and match statistics. -/
structure MessageRoute where
  pattern : String
  handler : Handler
  priority : Int := 0
  match_count : Nat := 0
  last_matched : Option Int := none
deriving DecidableEq

/-- `MessageRoute.matches`: the message's routing key against the
route's pattern. -/
def MessageRoute.matches_msg (r : MessageRoute) (m : A2AMessage) : Bool :=
  pattern_match r.pattern m.get_routing_key

/-- The `MessageRouter` mutable state: routing table, handler
registries, the three queues, statistics counters and configuration. -/
structure RouterState where
  routes : List MessageRoute
  agent_handlers : List (String × Handler)
  broadcast_handlers : List Handler
  pending_messages : List A2AMessage
  retry_queue : List (A2AMessage × Int)
  dead_letter_queue : List A2AMessage
  messages_routed : Nat := 0
  messages_delivered : Nat := 0
  messages_failed : Nat := 0
  messages_retried : Nat := 0
  max_queue_size : Nat := 10000
  retry_delay : Int := 5
  router_id : String := "router"
deriving DecidableEq

/-- Dictionary lookup in the agent-handler registry. -/
def lookupHandler : List (String × Handler) → String → Option Handler
  | [], _ => none
  | (a, h) :: rest, aid => if a = aid then some h else lookupHandler rest aid

/-- The message as stamped by `_move_to_dead_letter`: status failed,
dead-letter reason and time recorded in the delivery metadata. -/
def dead_letter_stamp (m : A2AMessage) (reason : String) (now : Int) : A2AMessage :=
  (({ m with status := .failed } :  A2AMessage).add_delivery_metadata
      "dead_letter_reason" reason).add_delivery_metadata
      "dead_letter_time" (toString now)

/-- `MessageRouter._move_to_dead_letter`: append the stamped message to
the dead-letter queue and bump the failure counter. -/
def move_to_dead_letter (st : RouterState) (m : A2AMessage) (reason : String)
    (now : Int) : RouterState :=
  { st with
    dead_letter_queue := st.dead_letter_queue ++ [dead_letter_stamp m reason now]
    messages_failed := st.messages_failed + 1 }

/-- The message as stamped by a successful `route_message`: status sent,
`router_id` and `queued_at` recorded in the delivery metadata. -/
def sent_stamp (m : A2AMessage) (router_id : String) (now : Int) : A2AMessage :=
  (({ m with status := .sent } : A2AMessage).add_delivery_metadata
      "router_id" router_id).add_delivery_metadata
      "queued_at" (toString now)

/-- `MessageRouter.route_message`: reject expired messages and reject
when the pending buffer is full (dead-lettering in both cases),
otherwise stamp the message and append it to the pending buffer. -/
def route_message (st : RouterState) (m : A2AMessage) (now : Int) :
    RouterState × Bool :=
  if m.is_expired now then (move_to_dead_letter st m "expired" now, false)
  else if st.max_queue_size ≤ st.pending_messages.length then
    (move_to_dead_letter st m "queue_full" now, false)
  else
    ({ st with
        pending_messages := st.pending_messages ++ [sent_stamp m st.router_id now]
        messages_routed := st.messages_routed + 1 }, true)

/-- The route-scanning loop of `_deliver_message`: try each route in
list order (the list is kept sorted by priority descending), invoke the
handler of the first route whose pattern matches and stop there; a
failing handler propagates as a failure.  Returns the overall success
flag, the handler identifiers invoked (appended to `invoked`), and the
updated route list (match statistics). -/
def deliver_routes (m : A2AMessage) (now : Int) (delivered : Bool)
    (invoked : List String) :
    List MessageRoute → Bool × List String × List MessageRoute
  | [] => (delivered, invoked, [])
  | r :: rs =>
    if r.matches_msg m then
      if r.handler.ok then
        (true, invoked ++ [r.handler.hid],
          { r with match_count := r.match_count + 1, last_matched := some now } :: rs)
      else (false, invoked ++ [r.handler.hid], r :: rs)
    else
      let (b, inv, rs') := deliver_routes m now delivered invoked rs
      (b, inv, r :: rs')

/-- `MessageRouter._deliver_message`: broadcast messages go to every
broadcast handler (success when at least one succeeds); otherwise the
direct agent handler for the receiver is invoked when registered, and
then the routes are scanned for a first match.  Returns the success
flag, the invoked handler identifiers in order, and the updated routes. -/
def deliver_message (routes : List MessageRoute)
    (agents : List (String × Handler)) (bcast : List Handler)
    (m : A2AMessage) (now : Int) : Bool × List String × List MessageRoute :=
  if m.receiver_id = "broadcast" then
    (decide (0 < (bcast.filter (fun h => h.ok)).length), bcast.map (fun h => h.hid), routes)
  else
    match lookupHandler agents m.receiver_id with
    | some h =>
      if h.ok then deliver_routes m now true [h.hid] routes
      else (false, [h.hid], routes)
    | none => deliver_routes m now false [] routes

/-- The message as stamped by the retry branch of
`_handle_delivery_failure`: retry count bumped, status reset to pending,
and the schedule time recorded in the delivery metadata. -/
def retry_stamp (m : A2AMessage) (now : Int) : A2AMessage :=
  m.mark_retry.add_delivery_metadata "retry_scheduled_at" (toString now)

/-- `MessageRouter._handle_delivery_failure`: retryable messages are
marked and scheduled at `now + retry_delay` in the retry queue; others
are dead-lettered with reason `"max_retries_exceeded"`. -/
def handle_delivery_failure (st : RouterState) (m : A2AMessage) (now : Int) :
    RouterState :=
  if m.can_retry now then
    { st with
      retry_queue := st.retry_queue ++ [(retry_stamp m now, now + st.retry_delay)]
      messages_retried := st.messages_retried + 1 }
  else move_to_dead_letter st m "max_retries_exceeded" now

/-- One message of `_process_pending_messages`: pop the front of the
pending buffer, attempt delivery, and on failure run the failure
handler. -/
def process_one (st : RouterState) (now : Int) : RouterState :=
  match st.pending_messages with
  | [] => st
  | m :: rest =>
    let st1 := { st with pending_messages := rest }
    let (ok, _, routes') :=
      deliver_message st1.routes st1.agent_handlers st1.broadcast_handlers m now
    let st2 := { st1 with routes := routes' }
    if ok then { st2 with messages_delivered := st2.messages_delivered + 1 }
    else handle_delivery_failure st2 m now

/-- The front scan of `_process_retry_queue`: messages at the front of
the retry queue whose scheduled time has passed are ready; the scan
stops at the first unready entry. -/
def ready_split (now : Int) :
    List (A2AMessage × Int) → List A2AMessage × List (A2AMessage × Int)
  | [] => ([], [])
  | (m, t) :: rest =>
    if t ≤ now then
      let (r, q) := ready_split now rest
      (m :: r, q)
    else ([], (m, t) :: rest)

/-- `MessageRouter._process_retry_queue`: move ready retry messages back
into the pending buffer. -/
def process_retry_queue (st : RouterState) (now : Int) : RouterState :=
  let (ready, remaining) := ready_split now st.retry_queue
  { st with retry_queue := remaining
            pending_messages := st.pending_messages ++ ready }

/-- The drain loops of `flush_queues`: pop every pending message and
attempt delivery, ignoring the result (only the route statistics are
threaded through). -/
def drain_pending (agents : List (String × Handler)) (bcast : List Handler)
    (now : Int) : List A2AMessage → List MessageRoute → List MessageRoute
  | [], routes => routes
  | m :: rest, routes =>
    let (_, _, routes') := deliver_message routes agents bcast m now
    drain_pending agents bcast now rest routes'

/-- `MessageRouter.flush_queues`: synchronously drain the pending
buffer, move ready retries to pending, and drain again. -/
def flush_queues (st : RouterState) (now : Int) : RouterState :=
  let routes1 :=
    drain_pending st.agent_handlers st.broadcast_handlers now st.pending_messages st.routes
  let st1 := { st with pending_messages := [], routes := routes1 }
  let st2 := process_retry_queue st1 now
  let routes2 :=
    drain_pending st2.agent_handlers st2.broadcast_handlers now st2.pending_messages st2.routes
  { st2 with pending_messages := [], routes := routes2 }

/-! ## Local priority queue (local_queue.py) -/

/-- The four priority buckets of a `LocalMessageQueue`, its capacity and
running flag. -/
structure QueueState where
  urgent : List A2AMessage
  high : List A2AMessage
  normal : List A2AMessage
  low : List A2AMessage
  max_size : Nat := 1000
  is_running : Bool := true
deriving DecidableEq

namespace QueueState

/-- The bucket for a given priority. -/
def bucket (q : QueueState) : MessagePriority → List A2AMessage
  | .urgent => q.urgent
  | .high => q.high
  | .normal => q.normal
  | .low => q.low

/-- Total number of stored messages across the four buckets. -/
def total (q : QueueState) : Nat :=
  q.urgent.length + q.high.length + q.normal.length + q.low.length

/-- All stored messages, in bucket-priority order then FIFO order. -/
def all_messages (q : QueueState) : List A2AMessage :=
  q.urgent ++ q.high ++ q.normal ++ q.low

/-- `LocalMessageQueue.enqueue`: reject when at capacity or expired,
otherwise append to the bucket matching the message's priority. -/
def enqueue (q : QueueState) (m : A2AMessage) (now : Int) : QueueState × Bool :=
  if q.max_size ≤ q.total then (q, false)
  else if m.is_expired now then (q, false)
  else
    match m.priority with
    | .urgent => ({ q with urgent := q.urgent ++ [m] }, true)
    | .high => ({ q with high := q.high ++ [m] }, true)
    | .normal => ({ q with normal := q.normal ++ [m] }, true)
    | .low => ({ q with low := q.low ++ [m] }, true)

/-- The low step of one `dequeue` polling pass. -/
def pass_low (q : QueueState) (now : Int) : QueueState × Option A2AMessage :=
  match q.low with
  | [] => (q, none)
  | m :: rest =>
    let q' := { q with low := rest }
    if m.is_expired now then (q', none) else (q', some m)

/-- The normal step of one `dequeue` polling pass. -/
def pass_normal (q : QueueState) (now : Int) : QueueState × Option A2AMessage :=
  match q.normal with
  | [] => pass_low q now
  | m :: rest =>
    let q' := { q with normal := rest }
    if m.is_expired now then pass_low q' now else (q', some m)

/-- The high step of one `dequeue` polling pass. -/
def pass_high (q : QueueState) (now : Int) : QueueState × Option A2AMessage :=
  match q.high with
  | [] => pass_normal q now
  | m :: rest =>
    let q' := { q with high := rest }
    if m.is_expired now then pass_normal q' now else (q', some m)

/-- One polling pass of `LocalMessageQueue.dequeue`: nothing when the
queue is stopped; otherwise scan the buckets urgent-first, pop the front
of each nonempty bucket, discard it when expired (moving to the next
bucket, as the `continue` in the source does), and return the first
non-expired message found. -/
def dequeue_pass (q : QueueState) (now : Int) : QueueState × Option A2AMessage :=
  if q.is_running = false then (q, none)
  else
    match q.urgent with
    | [] => pass_high q now
    | m :: rest =>
      let q' := { q with urgent := rest }
      if m.is_expired now then pass_high q' now else (q', some m)

/-- Repeated dequeuing: run polling passes, collecting the returned
messages, until a pass returns nothing or the fuel runs out (the source
loops until its timeout; the fuel plays the role of the timeout). -/
def drain : Nat → QueueState → Int → List A2AMessage
  | 0, _, _ => []
  | fuel + 1, q, now =>
    match dequeue_pass q now with
    | (q', some m) => m :: drain fuel q' now
    | (_, none) => []

end QueueState

/-! ## Serialization (A2AMessage.to_dict / from_dict) -/

/-- The dictionary produced by `A2AMessage.to_dict`: one key per field
of the data model, with the three enum fields carried as their string
values. -/
structure MessageDict where
  message_id : String
  sender_id : String
  receiver_id : String
  message_type : String
  payload : List (String × String)
  session_id : String
  timestamp : Int
  correlation_id : Option String
  reply_to : Option String
  priority : String
  ttl : Option Int
  status : String
  retry_count : Nat
  max_retries : Nat
  routing_key : Option String
  delivery_metadata : Option (List (String × String))
deriving DecidableEq

/-- `A2AMessage.to_dict`: all fields copied, enums replaced by their
string values. -/
def A2AMessage.to_dict (m : A2AMessage) : MessageDict :=
  { message_id := m.message_id
    sender_id := m.sender_id
    receiver_id := m.receiver_id
    message_type := m.message_type.value
    payload := m.payload
    session_id := m.session_id
    timestamp := m.timestamp
    correlation_id := m.correlation_id
    reply_to := m.reply_to
    priority := m.priority.value
    ttl := m.ttl
    status := m.status.value
    retry_count := m.retry_count
    max_retries := m.max_retries
    routing_key := m.routing_key
    delivery_metadata := m.delivery_metadata }

/-- `A2AMessage.from_dict`: parse the three enum strings (an unknown
value raises `ValueError`, modelled by `none`), then construct the
message, running `__post_init__`. -/
def A2AMessage.from_dict (gen_id : String) (gen_ts : Int) (d : MessageDict) :
    Option A2AMessage :=
  match MessageType.ofValue d.message_type, MessagePriority.ofValue d.priority,
      MessageStatus.ofValue d.status with
  | some mt, some pr, some stt =>
    some (A2AMessage.post_init gen_id gen_ts
      { message_id := d.message_id
        sender_id := d.sender_id
        receiver_id := d.receiver_id
        message_type := mt
        payload := d.payload
        session_id := d.session_id
        timestamp := d.timestamp
        correlation_id := d.correlation_id
        reply_to := d.reply_to
        priority := pr
        ttl := d.ttl
        status := stt
        retry_count := d.retry_count
        max_retries := d.max_retries
        routing_key := d.routing_key
        delivery_metadata := d.delivery_metadata })
  | _, _, _ => none

/-! ## Sample inputs used by concrete witnesses and counterexamples -/

/-- A plain well-formed message from agent A to agent B. -/
def msgSample : A2AMessage :=
  { message_id := "m1"
    sender_id := "A"
    receiver_id := "B"
    message_type := .task_assignment
    payload := [("k", "v")]
    session_id := "s1"
    timestamp := 100 }

/-- A message with an exhausted retry budget. -/
def msgNoRetry : A2AMessage := { msgSample with max_retries := 0 }

/-- A registered direct agent handler for agent_b. -/
def directHandler : Handler := { hid := "direct_b", ok := true }

/-- A route handler behind a catch-all pattern. -/
def routeHandlerX : Handler := { hid := "route_h", ok := true }

/-- One catch-all route. -/
def exRoutes : List MessageRoute :=
  [{ pattern := "*", handler := routeHandlerX, priority := 1 }]

/-- An agent-handler registry holding only agent_b. -/
def exAgents : List (String × Handler) := [("agent_b", directHandler)]

/-- A message addressed to agent_b. -/
def msgToB : A2AMessage :=
  { message_id := "m2"
    sender_id := "A"
    receiver_id := "agent_b"
    message_type := .task_assignment
    payload := []
    session_id := "s1"
    timestamp := 1 }

/-- A router state with the sample route table and registry and all
buffers empty. -/
def stSample : RouterState :=
  { routes := exRoutes
    agent_handlers := exAgents
    broadcast_handlers := []
    pending_messages := []
    retry_queue := []
    dead_letter_queue := [] }

/-- Distinct non-expiring messages for the queue witness. -/
def msgU : A2AMessage := { msgSample with message_id := "u1", priority := .urgent }

/-- Normal-priority sample message. -/
def msgN : A2AMessage := { msgSample with message_id := "n1", priority := .normal }

/-- Low-priority sample message. -/
def msgL : A2AMessage := { msgSample with message_id := "l1", priority := .low }

/-- A started queue holding one urgent, one normal and one low message. -/
def qSample : QueueState :=
  { urgent := [msgU], high := [], normal := [msgN], low := [msgL] }

/-- The handler identifier of the first route whose pattern matches the
message, when one exists (the route handler `_deliver_message` invokes
during its route scan). -/
def route_first_match_ids (routes : List MessageRoute) (m : A2AMessage) :
    List String :=
  match routes.find? (fun r => r.matches_msg m) with
  | some r => [r.handler.hid]
  | none => []

end ODRS

open ODRS

/-! ## Helper lemmas -/

/-- Reading back the key just written into an association list. -/
theorem getAssoc_setAssoc_self (l : List (String × String)) (k v : String) :
    getAssoc (setAssoc l k v) k = some v := by
  induction l with
  | nil => simp [setAssoc, getAssoc]
  | cons hd tl ih =>
    obtain ⟨k', v'⟩ := hd
    by_cases hk : k' = k
    · simp [setAssoc, hk, getAssoc]
    · simp [setAssoc, hk, getAssoc, ih]

/-- Writing one key leaves the others unchanged. -/
theorem getAssoc_setAssoc_ne (l : List (String × String)) (k v k' : String)
    (h : k ≠ k') : getAssoc (setAssoc l k v) k' = getAssoc l k' := by
  induction l with
  | nil => simp [setAssoc, getAssoc, h]
  | cons hd tl ih =>
    obtain ⟨k0, v0⟩ := hd
    by_cases hk : k0 = k
    · simp [setAssoc, hk, getAssoc, h]
    · simp [setAssoc, hk, getAssoc, ih]

/-- Reading back the delivery-metadata key just added. -/
theorem get_meta_add_self (m : A2AMessage) (k v : String) :
    (m.add_delivery_metadata k v).get_meta k = some v := by
  unfold A2AMessage.add_delivery_metadata A2AMessage.get_meta
  match m.delivery_metadata with
  | none => simp [getAssoc]
  | some l =>
    by_cases hl : l = []
    · simp [hl, getAssoc]
    · simp [hl, getAssoc_setAssoc_self]

/-- Adding one delivery-metadata key leaves the other keys unchanged. -/
theorem get_meta_add_ne (m : A2AMessage) (k v k' : String) (h : k ≠ k') :
    (m.add_delivery_metadata k v).get_meta k' = m.get_meta k' := by
  unfold A2AMessage.add_delivery_metadata A2AMessage.get_meta
  match m.delivery_metadata with
  | none => simp [getAssoc, h]
  | some l =>
    by_cases hl : l = []
    · simp [hl, getAssoc, h]
    · simp [hl, getAssoc_setAssoc_ne _ _ _ _ h]

/-! ## Claim C9 -/

/-- Claim C9: a message whose ttl is exactly 0 is treated the same as a
message with no ttl: `is_expired` is false for it at every point in
time, because the source tests truthiness of ttl, not presence. -/
theorem C9_ttl_zero_never_expires (m : A2AMessage) (now : Int) :
    A2AMessage.is_expired { m with ttl := some 0 } now = false ∧
    A2AMessage.is_expired { m with ttl := none } now = false := by
  constructor <;> simp [A2AMessage.is_expired]

/-! ## Claim C6 -/

/-- Claim C6: `can_retry` holds iff the retry count is below the budget
and the message is not expired; with max_retries = 3 it holds exactly
for retry counts 0, 1, 2 and fails from 3 on; `mark_retry` increments
the retry count by exactly one and resets status to pending, leaving
every other field unchanged. -/
theorem C6_retry_budget (m : A2AMessage) (now : Int) :
    (m.can_retry now = true ↔
      m.retry_count < m.max_retries ∧ m.is_expired now = false) ∧
    (m.max_retries = 3 → m.is_expired now = false →
      ((m.retry_count = 0 ∨ m.retry_count = 1 ∨ m.retry_count = 2) →
        m.can_retry now = true) ∧
      (3 ≤ m.retry_count → m.can_retry now = false)) ∧
    m.mark_retry =
      { m with retry_count := m.retry_count + 1, status := .pending } := by
  refine ⟨?_, ?_, rfl⟩
  · simp [A2AMessage.can_retry]
  · intro h3 hexp
    constructor
    · rintro (h | h | h) <;> simp [A2AMessage.can_retry, h3, hexp, h]
    · intro h
      simp [A2AMessage.can_retry, h3, hexp]
      omega

/-- Concrete instantiation of C6 at the sample message. -/
theorem C6_retry_budget_witness : msgSample.can_retry 0 = true :=
  ((C6_retry_budget msgSample 0).2.1 rfl rfl).1 (Or.inl rfl)

/-! ## Claim C7 -/

/-- Claim C7: a reply built by `create_reply` is addressed back to the
original sender, carries the supplied sender, links `correlation_id` and
`reply_to` to the original message id, and stays in the original
session. -/
theorem C7_reply_linkage (m : A2AMessage) (sender : String)
    (payload : List (String × String)) (mt : Option MessageType)
    (gen_id : String) (gen_ts : Int) :
    (A2AMessage.create_reply gen_id gen_ts m sender payload mt).receiver_id =
        m.sender_id ∧
    (A2AMessage.create_reply gen_id gen_ts m sender payload mt).sender_id =
        sender ∧
    (A2AMessage.create_reply gen_id gen_ts m sender payload mt).correlation_id =
        some m.message_id ∧
    (A2AMessage.create_reply gen_id gen_ts m sender payload mt).reply_to =
        some m.message_id ∧
    (A2AMessage.create_reply gen_id gen_ts m sender payload mt).session_id =
        m.session_id := by
  unfold A2AMessage.create_reply A2AMessage.post_init
  simp

/-! ## Claim C2 -/

/-- Claim C2 counterexample: the pattern "**.b" matches the single-segment
key "b", so a non-final "**" can match zero key segments; under the claim
("**" matches one-or-more remaining segments) this key, which has only the
one segment consumed by the literal "b", could not match. -/
theorem C2_counterexample :
    pattern_match "**.b" "b" = true ∧ (splitDots "b").length = 1 := by decide

/-- Claim C2 (amended): a bare "*" pattern matches every key; within a
pattern "*" matches exactly one segment (so "task_assignment.*" matches
"task_assignment.agent_2" but not "task_assignment.agent_2.sub", which
"task_assignment.**" does match); "**" as the final pattern segment
matches one-or-more remaining key segments unconditionally, while in
non-final position it skips forward (possibly zero segments) to the
first key segment equal to the next pattern segment; a pattern without
wildcards must equal the key literally. -/
theorem C2_pattern_matching :
    (∀ key : String, pattern_match "*" key = true) ∧
    (∀ (ps ks : List String) (k : String),
      match_parts ("*" :: ps) (k :: ks) = match_parts ps ks) ∧
    (∀ ps : List String, match_parts ("*" :: ps) [] = false) ∧
    pattern_match "task_assignment.*" "task_assignment.agent_2" = true ∧
    pattern_match "task_assignment.*" "task_assignment.agent_2.sub" = false ∧
    pattern_match "task_assignment.**" "task_assignment.agent_2.sub" = true ∧
    (∀ rest : List String, match_parts ["**"] rest = !rest.isEmpty) ∧
    (∀ (np : String) (rest : List String) (k : String) (ks : List String),
      match_parts ("**" :: np :: rest) (k :: ks) =
        match_parts (np :: rest) (skipTo np (k :: ks))) ∧
    (∀ p key : String, p.toList.contains '*' = false →
      pattern_match p key = (p == key)) := by
  refine ⟨?_, ?_, ?_, by decide, by decide, by decide, ?_, ?_, ?_⟩
  · intro key
    rfl
  · intro ps ks k
    rw [match_parts.eq_def]
    simp
  · intro ps
    rw [match_parts.eq_def]
  · intro rest
    cases rest <;> rw [match_parts.eq_def] <;> simp
  · intro np rest k ks
    rw [match_parts.eq_def]
    simp
  · intro p key h
    have hp : p ≠ "*" := by
      intro e
      subst e
      have hc : ("*".toList.contains '*') = true := by decide
      rw [hc] at h
      cases h
    unfold pattern_match
    rw [if_neg hp, if_pos h]

/-- Concrete instantiation of C2's literal-match clause. -/
theorem C2_pattern_matching_witness :
    pattern_match "abc.def" "abc.def" = ("abc.def" == "abc.def") :=
  C2_pattern_matching.2.2.2.2.2.2.2.2 "abc.def" "abc.def" (by decide)

/-! ## Claim C8 -/

/-- Parsing inverts the string value of a message type. -/
theorem messageType_ofValue_value (mt : MessageType) :
    MessageType.ofValue mt.value = some mt := by
  cases mt <;> rfl

/-- Parsing inverts the string value of a message priority. -/
theorem messagePriority_ofValue_value (p : MessagePriority) :
    MessagePriority.ofValue p.value = some p := by
  cases p <;> rfl

/-- Parsing inverts the string value of a message status. -/
theorem messageStatus_ofValue_value (s : MessageStatus) :
    MessageStatus.ofValue s.value = some s := by
  cases s <;> rfl

/-- Claim C8: serialization round-trips — `from_dict` of `to_dict` gives
back any well-formed message (non-empty id and timestamp, so that
`__post_init__` regenerates nothing) — and `to_dict` carries the three
enum fields as their lower-snake-case string values, e.g.
"task_assignment", "urgent", "pending". -/
theorem C8_serialization_roundtrip (m : A2AMessage) (gen_id : String)
    (gen_ts : Int) :
    (m.message_id ≠ "" → m.timestamp ≠ 0 →
      A2AMessage.from_dict gen_id gen_ts m.to_dict = some m) ∧
    m.to_dict.message_type = m.message_type.value ∧
    m.to_dict.priority = m.priority.value ∧
    m.to_dict.status = m.status.value ∧
    MessageType.value .task_assignment = "task_assignment" ∧
    MessagePriority.value .urgent = "urgent" ∧
    MessageStatus.value .pending = "pending" := by
  refine ⟨?_, rfl, rfl, rfl, rfl, rfl, rfl⟩
  intro h1 h2
  unfold A2AMessage.from_dict A2AMessage.to_dict
  simp only [messageType_ofValue_value, messagePriority_ofValue_value,
    messageStatus_ofValue_value]
  unfold A2AMessage.post_init
  simp [h1, h2]

/-- Concrete instantiation of C8 at the sample message. -/
theorem C8_serialization_roundtrip_witness :
    A2AMessage.from_dict "g" 7 msgSample.to_dict = some msgSample :=
  (C8_serialization_roundtrip msgSample "g" 7).1 (by decide) (by decide)

/-- Adding delivery metadata changes no field other than the metadata. -/
theorem add_meta_status (m : A2AMessage) (k v : String) :
    (m.add_delivery_metadata k v).status = m.status := by
  unfold A2AMessage.add_delivery_metadata
  cases hd : m.delivery_metadata with
  | none => rfl
  | some l =>
    by_cases hl : l = [] <;> simp [hl]

/-! ## Claim C3 -/

/-- Claim C3: `route_message` dead-letters an already-expired message
with reason "expired" and returns false; dead-letters with reason
"queue_full" and returns false when the pending buffer is at or above
capacity; and otherwise stamps status sent, records `router_id` and
`queued_at` in the delivery metadata, appends to the pending buffer and
returns true, touching no other buffer and invoking no handler. -/
theorem C3_route_message (st : RouterState) (m : A2AMessage) (now : Int) :
    (m.is_expired now = true →
      route_message st m now = (move_to_dead_letter st m "expired" now, false) ∧
      (route_message st m now).1.dead_letter_queue =
        st.dead_letter_queue ++ [dead_letter_stamp m "expired" now] ∧
      (dead_letter_stamp m "expired" now).get_meta "dead_letter_reason" =
        some "expired" ∧
      (route_message st m now).1.pending_messages = st.pending_messages) ∧
    (m.is_expired now = false →
      st.max_queue_size ≤ st.pending_messages.length →
      route_message st m now =
        (move_to_dead_letter st m "queue_full" now, false) ∧
      (dead_letter_stamp m "queue_full" now).get_meta "dead_letter_reason" =
        some "queue_full" ∧
      (route_message st m now).1.pending_messages = st.pending_messages) ∧
    (m.is_expired now = false →
      st.pending_messages.length < st.max_queue_size →
      (route_message st m now).2 = true ∧
      (route_message st m now).1.pending_messages =
        st.pending_messages ++ [sent_stamp m st.router_id now] ∧
      (sent_stamp m st.router_id now).status = .sent ∧
      (sent_stamp m st.router_id now).get_meta "router_id" =
        some st.router_id ∧
      (sent_stamp m st.router_id now).get_meta "queued_at" =
        some (toString now) ∧
      (route_message st m now).1.dead_letter_queue = st.dead_letter_queue ∧
      (route_message st m now).1.retry_queue = st.retry_queue ∧
      (route_message st m now).1.routes = st.routes) := by
  refine ⟨?_, ?_, ?_⟩
  · intro hexp
    have hr : route_message st m now =
        (move_to_dead_letter st m "expired" now, false) := by
      simp [route_message, hexp]
    refine ⟨hr, ?_, ?_, ?_⟩
    · rw [hr]
      rfl
    · rw [dead_letter_stamp, get_meta_add_ne _ _ _ _ (by decide),
        get_meta_add_self]
    · rw [hr]
      rfl
  · intro hexp hfull
    have hr : route_message st m now =
        (move_to_dead_letter st m "queue_full" now, false) := by
      simp [route_message, hexp, hfull, Nat.not_lt_of_le hfull]
    refine ⟨hr, ?_, ?_⟩
    · rw [dead_letter_stamp, get_meta_add_ne _ _ _ _ (by decide),
        get_meta_add_self]
    · rw [hr]
      rfl
  · intro hexp hroom
    have hr : route_message st m now =
        ({ st with
            pending_messages :=
              st.pending_messages ++ [sent_stamp m st.router_id now]
            messages_routed := st.messages_routed + 1 }, true) := by
      simp [route_message, hexp, Nat.not_le_of_lt hroom]
    refine ⟨by rw [hr], by rw [hr], ?_, ?_, ?_, by rw [hr], by rw [hr],
      by rw [hr]⟩
    · rw [sent_stamp, add_meta_status, add_meta_status]
    · rw [sent_stamp, get_meta_add_ne _ _ _ _ (by decide), get_meta_add_self]
    · rw [sent_stamp, get_meta_add_self]

/-- Concrete instantiation of C3's success branch at the sample router
state and message. -/
theorem C3_route_message_witness :
    (route_message stSample msgSample 0).2 = true :=
  ((C3_route_message stSample msgSample 0).2.2 rfl (by decide)).1

/-! ## Claim C4 -/

/-- When no route pattern matches, the route scan invokes nothing and
changes nothing. -/
theorem deliver_routes_no_match (m : A2AMessage) (now : Int) (d : Bool)
    (inv : List String) (routes : List MessageRoute)
    (h : ∀ r ∈ routes, r.matches_msg m = false) :
    deliver_routes m now d inv routes = (d, inv, routes) := by
  induction routes with
  | nil => rfl
  | cons r rs ih =>
    have hr : r.matches_msg m = false := h r (by simp)
    have hrs : ∀ x ∈ rs, x.matches_msg m = false := fun x hx => h x (by simp [hx])
    simp [deliver_routes, hr, ih hrs]

/-- Claim C4: a failed delivery is retried — `mark_retry` plus an entry
`(message, now + retry_delay)` appended to the retry queue — exactly
when `can_retry` holds, and is dead-lettered with reason
"max_retries_exceeded" otherwise; in particular a message with
max_retries = 0 addressed to an unregistered agent with no matching
route is dead-lettered by the very first processing step. -/
theorem C4_delivery_failure (st : RouterState) (m : A2AMessage) (now : Int)
    (rest : List A2AMessage) :
    (m.can_retry now = true →
      handle_delivery_failure st m now =
        { st with
            retry_queue :=
              st.retry_queue ++ [(retry_stamp m now, now + st.retry_delay)]
            messages_retried := st.messages_retried + 1 }) ∧
    (m.can_retry now = false →
      handle_delivery_failure st m now =
        move_to_dead_letter st m "max_retries_exceeded" now ∧
      (handle_delivery_failure st m now).dead_letter_queue =
        st.dead_letter_queue ++
          [dead_letter_stamp m "max_retries_exceeded" now]) ∧
    (m.max_retries = 0 → m.receiver_id ≠ "broadcast" →
      lookupHandler st.agent_handlers m.receiver_id = none →
      (∀ r ∈ st.routes, r.matches_msg m = false) →
      st.pending_messages = m :: rest →
      (process_one st now).dead_letter_queue =
        st.dead_letter_queue ++
          [dead_letter_stamp m "max_retries_exceeded" now] ∧
      (dead_letter_stamp m "max_retries_exceeded" now).get_meta
        "dead_letter_reason" = some "max_retries_exceeded") := by
  refine ⟨?_, ?_, ?_⟩
  · intro h
    simp [handle_delivery_failure, h]
  · intro h
    have he : handle_delivery_failure st m now =
        move_to_dead_letter st m "max_retries_exceeded" now := by
      simp [handle_delivery_failure, h]
    exact ⟨he, by rw [he]; rfl⟩
  · intro h0 hb hl hnr hp
    have hcr : m.can_retry now = false := by
      simp [A2AMessage.can_retry, h0]
    have hdel :
        deliver_message st.routes st.agent_handlers st.broadcast_handlers
          m now = (false, [], st.routes) := by
      simp [deliver_message, hb, hl, deliver_routes_no_match m now false [] st.routes hnr]
    refine ⟨?_, ?_⟩
    · simp [process_one, hp, hdel, handle_delivery_failure, hcr,
        move_to_dead_letter]
    · rw [dead_letter_stamp, get_meta_add_ne _ _ _ _ (by decide),
        get_meta_add_self]

/-- Concrete instantiation of C4's dead-letter branch at a message with
an exhausted retry budget. -/
theorem C4_delivery_failure_witness :
    handle_delivery_failure stSample msgNoRetry 0 =
      move_to_dead_letter stSample msgNoRetry "max_retries_exceeded" 0 :=
  ((C4_delivery_failure stSample msgNoRetry 0 []).2.1 (by decide)).1

/-! ## Claim C10 -/

/-- The retry entries left behind by the front scan form a suffix of the
original retry queue: the scan only removes entries, never adds. -/
theorem ready_split_suffix (now : Int) (l : List (A2AMessage × Int)) :
    (ready_split now l).2 <:+ l := by
  induction l with
  | nil => simp [ready_split]
  | cons e rest ih =>
    obtain ⟨m, t⟩ := e
    by_cases ht : t ≤ now
    · simp only [ready_split, if_pos ht]
      exact List.suffix_cons_iff.mpr (Or.inr ih)
    · simp [ready_split, ht]

/-- Claim C10: after `flush_queues` the pending buffer is empty, the
dead-letter queue is exactly what it was before (no flush-failed message
is dead-lettered), and the retry queue is only ever shrunk (no retry is
scheduled); a message whose delivery failed during the flush is
therefore in no router buffer. -/
theorem C10_flush_drops_failures (st : RouterState) (now : Int) :
    (flush_queues st now).pending_messages = [] ∧
    (flush_queues st now).dead_letter_queue = st.dead_letter_queue ∧
    (flush_queues st now).retry_queue = (ready_split now st.retry_queue).2 ∧
    (flush_queues st now).retry_queue <:+ st.retry_queue := by
  refine ⟨rfl, rfl, rfl, ?_⟩
  exact ready_split_suffix now st.retry_queue

/-! ## Claim C1 -/

/-- The route scan invokes exactly the handler of the first matching
route (appended to whatever was invoked before the scan). -/
theorem deliver_routes_invoked (routes : List MessageRoute)
    (m : A2AMessage) (now : Int) (d : Bool) (inv : List String) :
    (deliver_routes m now d inv routes).2.1 =
      inv ++ route_first_match_ids routes m := by
  induction routes with
  | nil => simp [deliver_routes, route_first_match_ids, List.find?]
  | cons r rs ih =>
    by_cases hr : r.matches_msg m
    · by_cases hok : r.handler.ok <;>
        simp [deliver_routes, hr, hok, route_first_match_ids, List.find?]
    · have hr' : r.matches_msg m = false := by
        simpa using hr
      simp [deliver_routes, hr', route_first_match_ids, List.find?, ih]

/-- Claim C1 counterexample: with a direct agent handler registered for
the receiver and a matching catch-all route, `_deliver_message` invokes
BOTH the direct handler and the route handler — the invoked-handler list
is ["direct_b", "route_h"], not the direct handler alone, so routes are
not tried only when no direct handler is registered. -/
theorem C1_counterexample :
    lookupHandler exAgents msgToB.receiver_id = some directHandler ∧
    (deliver_message exRoutes exAgents [] msgToB 0).2.1 =
      ["direct_b", "route_h"] := by
  constructor
  · rfl
  · decide

/-- Claim C1 (amended): for a non-broadcast message, the registered
direct agent handler is invoked first when present, and — whether or not
a direct handler is registered — the routes are then scanned and the
handler of the first matching route (in priority order) is additionally
invoked; never more than one route handler is invoked. -/
theorem C1_first_match_policy (routes : List MessageRoute)
    (agents : List (String × Handler)) (bcast : List Handler)
    (m : A2AMessage) (now : Int) (h : Handler) :
    m.receiver_id ≠ "broadcast" →
    ((lookupHandler agents m.receiver_id = some h → h.ok = true →
      (deliver_message routes agents bcast m now).2.1 =
        h.hid :: route_first_match_ids routes m) ∧
     (lookupHandler agents m.receiver_id = none →
      (deliver_message routes agents bcast m now).2.1 =
        route_first_match_ids routes m) ∧
     (route_first_match_ids routes m).length ≤ 1) := by
  intro hb
  refine ⟨?_, ?_, ?_⟩
  · intro hl hok
    simp [deliver_message, hb, hl, hok, deliver_routes_invoked]
  · intro hl
    simp [deliver_message, hb, hl, deliver_routes_invoked]
  · unfold route_first_match_ids
    cases (routes.find? (fun r => r.matches_msg m)) <;> simp

/-- Concrete instantiation of C1 (amended) at the sample inputs. -/
theorem C1_first_match_policy_witness :
    (deliver_message exRoutes exAgents [] msgToB 0).2.1 =
      directHandler.hid :: route_first_match_ids exRoutes msgToB :=
  ((C1_first_match_policy exRoutes exAgents [] msgToB 0 directHandler
    (by decide)).1) rfl rfl

/-! ## Claim C5 -/

/-- The low-bucket step never touches the urgent bucket. -/
theorem pass_low_urgent (q : QueueState) (now : Int) :
    (QueueState.pass_low q now).1.urgent = q.urgent := by
  unfold QueueState.pass_low
  cases hd : q.low with
  | nil => rfl
  | cons m rest => by_cases h : m.is_expired now <;> simp [h]

/-- The normal-bucket step never touches the urgent bucket. -/
theorem pass_normal_urgent (q : QueueState) (now : Int) :
    (QueueState.pass_normal q now).1.urgent = q.urgent := by
  unfold QueueState.pass_normal
  cases hd : q.normal with
  | nil => exact pass_low_urgent q now
  | cons m rest =>
    by_cases h : m.is_expired now <;>
      simp [h, pass_low_urgent]

/-- The high-bucket step never touches the urgent bucket. -/
theorem pass_high_urgent (q : QueueState) (now : Int) :
    (QueueState.pass_high q now).1.urgent = q.urgent := by
  unfold QueueState.pass_high
  cases hd : q.high with
  | nil => exact pass_normal_urgent q now
  | cons m rest =>
    by_cases h : m.is_expired now <;>
      simp [h, pass_normal_urgent]

/-- Draining a started queue of never-expired messages with fuel equal
to its size returns exactly the bucket concatenation in priority order,
FIFO within each bucket. -/
theorem drain_eq (now : Int) :
    ∀ (n : Nat) (q : QueueState), q.is_running = true →
      (∀ x ∈ q.all_messages, x.is_expired now = false) →
      q.total = n → QueueState.drain n q now = q.all_messages := by
  intro n
  induction n with
  | zero =>
    intro q hr hx h0
    simp only [QueueState.total] at h0
    obtain ⟨hu, hh, hm, hl⟩ :
        q.urgent = [] ∧ q.high = [] ∧ q.normal = [] ∧ q.low = [] := by
      refine ⟨?_, ?_, ?_, ?_⟩ <;> rw [← List.length_eq_zero] <;> omega
    simp [QueueState.drain, QueueState.all_messages, hu, hh, hm, hl]
  | succ k ih =>
    intro q hr hx hn
    cases hu : q.urgent with
    | cons m us =>
      have hm : m.is_expired now = false :=
        hx m (by simp [QueueState.all_messages, hu])
      have hdq : QueueState.dequeue_pass q now =
          ({ q with urgent := us }, some m) := by
        simp [QueueState.dequeue_pass, hr, hu, hm]
      have htot : ({ q with urgent := us } : QueueState).total = k := by
        simp only [QueueState.total, hu] at hn ⊢
        simp at hn
        omega
      have hx' : ∀ x ∈ ({ q with urgent := us } : QueueState).all_messages,
          x.is_expired now = false := by
        intro x hxm
        refine hx x ?_
        simp only [QueueState.all_messages, hu] at hxm ⊢
        simp at hxm ⊢
        tauto
      have := ih { q with urgent := us } hr hx' htot
      simp [QueueState.drain, hdq, this, QueueState.all_messages, hu]
    | nil =>
    cases hh : q.high with
    | cons m hs =>
      have hm : m.is_expired now = false :=
        hx m (by simp [QueueState.all_messages, hh])
      have hdq : QueueState.dequeue_pass q now =
          ({ q with high := hs }, some m) := by
        simp [QueueState.dequeue_pass, hr, hu, QueueState.pass_high, hh, hm]
      have htot : ({ q with high := hs } : QueueState).total = k := by
        simp only [QueueState.total, hh] at hn ⊢
        simp at hn
        omega
      have hx' : ∀ x ∈ ({ q with high := hs } : QueueState).all_messages,
          x.is_expired now = false := by
        intro x hxm
        refine hx x ?_
        simp only [QueueState.all_messages, hh] at hxm ⊢
        simp at hxm ⊢
        tauto
      have := ih { q with high := hs } hr hx' htot
      simp only [hu] at this
      simp [QueueState.drain, hdq, this, QueueState.all_messages, hu, hh]
    | nil =>
    cases hm : q.normal with
    | cons m ns =>
      have hme : m.is_expired now = false :=
        hx m (by simp [QueueState.all_messages, hm])
      have hdq : QueueState.dequeue_pass q now =
          ({ q with normal := ns }, some m) := by
        simp [QueueState.dequeue_pass, hr, hu, QueueState.pass_high, hh,
          QueueState.pass_normal, hm, hme]
      have htot : ({ q with normal := ns } : QueueState).total = k := by
        simp only [QueueState.total, hm] at hn ⊢
        simp at hn
        omega
      have hx' : ∀ x ∈ ({ q with normal := ns } : QueueState).all_messages,
          x.is_expired now = false := by
        intro x hxm
        refine hx x ?_
        simp only [QueueState.all_messages, hm] at hxm ⊢
        simp at hxm ⊢
        tauto
      have := ih { q with normal := ns } hr hx' htot
      simp only [hu, hh] at this
      simp [QueueState.drain, hdq, this, QueueState.all_messages, hu, hh, hm]
    | nil =>
    cases hl : q.low with
    | cons m ls =>
      have hme : m.is_expired now = false :=
        hx m (by simp [QueueState.all_messages, hl])
      have hdq : QueueState.dequeue_pass q now =
          ({ q with low := ls }, some m) := by
        simp [QueueState.dequeue_pass, hr, hu, QueueState.pass_high, hh,
          QueueState.pass_normal, hm, QueueState.pass_low, hl, hme]
      have htot : ({ q with low := ls } : QueueState).total = k := by
        simp only [QueueState.total, hl] at hn ⊢
        simp at hn
        omega
      have hx' : ∀ x ∈ ({ q with low := ls } : QueueState).all_messages,
          x.is_expired now = false := by
        intro x hxm
        refine hx x ?_
        simp only [QueueState.all_messages, hl] at hxm ⊢
        simp at hxm ⊢
        tauto
      have := ih { q with low := ls } hr hx' htot
      simp only [hu, hh, hm] at this
      simp [QueueState.drain, hdq, this, QueueState.all_messages, hu, hh, hm, hl]
    | nil =>
      exfalso
      simp only [QueueState.total, hu, hh, hm, hl] at hn
      simp at hn

/-- Claim C5: enqueue appends an accepted message to the bucket of its
priority level and touches no other bucket; repeatedly dequeuing a
started queue of never-expired messages yields all urgent messages
first, then high, then normal, then low, FIFO within each level; and a
dequeue pass finding an expired message at the front of a bucket
discards it and moves on instead of returning it. -/
theorem C5_priority_fifo (q : QueueState) (now : Int) :
    (∀ m : A2AMessage, q.total < q.max_size → m.is_expired now = false →
      (q.enqueue m now).2 = true ∧
      (q.enqueue m now).1.bucket m.priority = q.bucket m.priority ++ [m] ∧
      (∀ p : MessagePriority, p ≠ m.priority →
        (q.enqueue m now).1.bucket p = q.bucket p)) ∧
    (q.is_running = true →
      (∀ x ∈ q.all_messages, x.is_expired now = false) →
      QueueState.drain q.total q now = q.all_messages) ∧
    (∀ (mexp : A2AMessage) (rest : List A2AMessage),
      q.is_running = true → q.urgent = mexp :: rest →
      mexp.is_expired now = true →
      QueueState.dequeue_pass q now =
        QueueState.pass_high { q with urgent := rest } now ∧
      (QueueState.dequeue_pass q now).1.urgent = rest) := by
  refine ⟨?_, ?_, ?_⟩
  · intro m hcap hexp
    have hnc : ¬(q.max_size ≤ q.total) := Nat.not_le_of_lt hcap
    refine ⟨?_, ?_, ?_⟩
    · cases hp : m.priority <;>
        simp [QueueState.enqueue, hnc, hexp, hp]
    · cases hp : m.priority <;>
        simp [QueueState.enqueue, hnc, hexp, hp, QueueState.bucket]
    · intro p hne
      cases hp : m.priority <;> cases p <;>
        first
          | exact absurd hp.symm hne
          | simp [QueueState.enqueue, hnc, hexp, hp, QueueState.bucket]
  · intro hr hx
    exact drain_eq now q.total q hr hx rfl
  · intro mexp rest hr hu hexp
    have hdq : QueueState.dequeue_pass q now =
        QueueState.pass_high { q with urgent := rest } now := by
      simp [QueueState.dequeue_pass, hr, hu, hexp]
    exact ⟨hdq, by rw [hdq, pass_high_urgent]⟩

/-- Concrete instantiation of C5's drain ordering at the sample queue:
urgent before normal before low. -/
theorem C5_priority_fifo_witness :
    QueueState.drain qSample.total qSample 0 = [msgU, msgN, msgL] := by
  have h := (C5_priority_fifo qSample 0).2.1 rfl (by decide)
  simpa [qSample, QueueState.all_messages] using h

/-! ## Additional concrete instantiations -/

/-- Concrete instantiation of C7 at the sample message. -/
theorem C7_reply_linkage_witness :
    (A2AMessage.create_reply "r1" 5 msgSample "B" [] none).receiver_id =
      msgSample.sender_id :=
  (C7_reply_linkage msgSample "B" [] none "r1" 5).1

/-- Concrete instantiation of C9 at the sample message. -/
theorem C9_ttl_zero_never_expires_witness :
    A2AMessage.is_expired { msgSample with ttl := some 0 } 999 = false :=
  (C9_ttl_zero_never_expires msgSample 999).1

/-- Concrete instantiation of C10 at the sample router state. -/
theorem C10_flush_drops_failures_witness :
    (flush_queues stSample 0).pending_messages = [] :=
  (C10_flush_drops_failures stSample 0).1
